import Mathlib

/-!
LearningApp: the Todo and Note resource API.

A shallow embedding of `server/index.js` (the Express handlers for `/api/todos`
and `/api/notes`) and of the request the client's `handleToggleTodo` sends
(`src/component/TodoList.js`).

Each handler is a function of the pool it queries, the request and the state
of the store; it returns the response sent, the statements it issued, the
lines it logged and the state of the store afterwards.
-/

namespace LearningApp

/-! ## JavaScript values -/

/-- A JavaScript number, as far as the handlers can observe one: `NaN`, the
negative zero, the two infinities, or a finite value (`real 0` is `+0`). -/
inductive JsNumber where
  | nan
  | negZero
  | posInf
  | negInf
  | real (q : ℚ)
  deriving DecidableEq

/-- A JavaScript value: what a property of the parsed JSON body can hold, and
`undefined` for a property that is absent. -/
inductive JsValue where
  | undefined
  | null
  | bool (b : Bool)
  | num (n : JsNumber)
  | str (s : String)
  | arr (items : List JsValue)
  | obj (props : List (String × JsValue))

/-- The own properties of a JavaScript object, by name. -/
abbrev JsObject := List (String × JsValue)

/-- ToBoolean on numbers: `NaN`, `+0` and `-0` are falsy. -/
def JsNumber.toBoolean : JsNumber → Bool
  | .nan => false
  | .negZero => false
  | .posInf => true
  | .negInf => true
  | .real q => decide (q ≠ 0)

/-- ToBoolean, the test behind `!x` and `x || y`: `undefined`, `null`, `false`,
`NaN`, the zeros and the empty string are falsy, everything else is truthy. -/
def JsValue.toBoolean : JsValue → Bool
  | .undefined => false
  | .null => false
  | .bool b => b
  | .num n => n.toBoolean
  | .str s => decide (s ≠ "")
  | .arr _ => true
  | .obj _ => true

/-- The test `x === undefined`. -/
def JsValue.isUndefined : JsValue → Bool
  | .undefined => true
  | _ => false

/-- The test `x === null`. -/
def JsValue.isNull : JsValue → Bool
  | .null => true
  | _ => false

/-- The value of `x || y`. -/
def JsValue.or (x y : JsValue) : JsValue :=
  if x.toBoolean then x else y

/-- Property read `o.k`, as the destructuring `const { k } = o` does it: the
value of the property, `undefined` when the object has none of that name. -/
def getProp (o : JsObject) (k : String) : JsValue :=
  (o.lookup k).getD JsValue.undefined

/-! ## Requests, statements, responses -/

/-- The path parameters of a request (`req.params`). -/
structure Params where
  id : String

/-- A request as a handler sees it: `req.params` and `req.body`, the body
parsed by `express.json()` (an array body has none of the named properties and
behaves as the empty object). -/
structure Request where
  params : Params
  body : JsObject

/-- A statement handed to `pool.query`: its text and its parameter list. -/
structure Query where
  text : String
  params : List JsValue

/-- The error a failing `pool.query` throws. -/
structure StoreError where
  message : String
  stack : String

/-- The text a `text` column holds. A column written from a string, or from a
boolean (`true`, `false`), holds that text (`lit`); written from a number, an
array or an object it holds the text the driver wrote for that value, which is
kept by the value it was written from. In a result row it is a JavaScript
string with that text. -/
inductive PgText where
  | lit (s : String)
  | number (n : JsNumber)
  | array (items : List JsValue)
  | object (props : List (String × JsValue))

/-- A row of the `todos` table: `id` integer, `task` text, `completed`
boolean; `none` is SQL `NULL`, JavaScript `null` in a result row. -/
structure Todo where
  id : Int
  task : Option PgText
  completed : Option Bool

/-- A row of the `notes` table: `id` integer, `title` and `content` text, the
two timestamps; `none` is SQL `NULL`. -/
structure Note where
  id : Int
  title : Option PgText
  content : Option PgText
  created_at : Nat
  updated_at : Nat

/-- A row of the notes listing: the columns `id, title, created_at, updated_at`. -/
structure NoteSummary where
  id : Int
  title : Option PgText
  created_at : Nat
  updated_at : Nat

/-- A row of a result set. -/
inductive Row where
  | todo (t : Todo)
  | note (n : Note)
  | summary (n : NoteSummary)

/-- The value `pool.query` resolves to. -/
structure QueryResult where
  rows : List Row

/-- The connection pool, as the handlers use it: `pool.query(text, params)`
run against a store in state `σ` either throws or resolves to a result, and
leaves the store in a state of its own choosing. -/
abbrev Pool (σ : Type) := Query → σ → Except StoreError QueryResult × σ

/-- The pool `pool` observed from outside the handlers: next to the store it
keeps the statements it was handed, in the order it was handed them. -/
def recording {σ : Type} (pool : Pool σ) : Pool (σ × List Query) := fun q s =>
  ((pool q s.1).1, ((pool q s.1).2, s.2 ++ [q]))

/-- The JSON body of a response: `{ error }`, `{ message }`, `result.rows` or
`result.rows[0]` (which is `undefined`, here `none`, for an empty result). -/
inductive Body where
  | error (msg : String)
  | message (msg : String)
  | rows (rs : List Row)
  | row (r : Option Row)

/-- A response: its status and JSON body. -/
structure Response where
  status : Nat
  body : Body

/-- What handling one request did: the response sent, the statements issued to
the pool, the lines written by `console.error` and the store afterwards. -/
structure Outcome (σ : Type) where
  response : Response
  issued : List Query
  log : List String
  db : σ

/-- What a handler does to an observed pool, in terms of what it does to the
pool observed: `o` with the statements `o.issued` noted after those seen. -/
def observed {σ : Type} (o : Outcome σ) (seen : List Query) : Outcome (σ × List Query) :=
  ⟨o.response, o.issued, o.log, (o.db, seen ++ o.issued)⟩

/-! ## Todo handlers -/

/-- The handler `app.get('/api/todos')`. -/
def getTodos {σ : Type} (pool : Pool σ) (_req : Request) (db : σ) : Outcome σ :=
  let q : Query := ⟨"SELECT * FROM todos ORDER BY id ASC", []⟩
  match pool q db with
  | (.ok result, db1) => ⟨⟨200, .rows result.rows⟩, [q], [], db1⟩
  | (.error err, db1) =>
    ⟨⟨500, .error "Server error"⟩, [q], ["Error fetching todos: " ++ err.message], db1⟩

/-- The handler `app.post('/api/todos')`. -/
def postTodo {σ : Type} (pool : Pool σ) (req : Request) (db : σ) : Outcome σ :=
  let task := getProp req.body "task"
  if !task.toBoolean then
    ⟨⟨400, .error "Task is required"⟩, [], [], db⟩
  else
    let q : Query := ⟨"INSERT INTO todos (task) VALUES ($1) RETURNING *", [task]⟩
    match pool q db with
    | (.ok result, db1) => ⟨⟨201, .row result.rows.head?⟩, [q], [], db1⟩
    | (.error err, db1) =>
      ⟨⟨500, .error "Server error"⟩, [q], ["Error creating todo: " ++ err.message], db1⟩

/-- The handler `app.put('/api/todos/:id')`. -/
def putTodo {σ : Type} (pool : Pool σ) (req : Request) (db : σ) : Outcome σ :=
  let id := req.params.id
  let task := getProp req.body "task"
  let completed := getProp req.body "completed"
  let queryText := "UPDATE todos SET "
  let queryParams : List JsValue := []
  let setClauses : List String := []
  let (setClauses, queryParams) :=
    if !task.isUndefined then
      (setClauses ++ ["task = $" ++ toString (setClauses.length + 1)], queryParams ++ [task])
    else (setClauses, queryParams)
  let (setClauses, queryParams) :=
    if !completed.isUndefined then
      (setClauses ++ ["completed = $" ++ toString (setClauses.length + 1)],
        queryParams ++ [completed])
    else (setClauses, queryParams)
  if setClauses.length = 0 then
    ⟨⟨400, .error "No fields to update"⟩, [], [], db⟩
  else
    let queryText := queryText ++
      (String.intercalate ", " setClauses ++ " WHERE id = $" ++
        toString (queryParams.length + 1) ++ " RETURNING *")
    let queryParams := queryParams ++ [JsValue.str id]
    let q : Query := ⟨queryText, queryParams⟩
    match pool q db with
    | (.ok result, db1) =>
      if result.rows.length = 0 then
        ⟨⟨404, .error "Todo not found"⟩, [q], [], db1⟩
      else ⟨⟨200, .row result.rows.head?⟩, [q], [], db1⟩
    | (.error err, db1) =>
      ⟨⟨500, .error "Server error"⟩, [q], ["Error updating todo: " ++ err.message], db1⟩

/-- The handler `app.delete('/api/todos/:id')`. -/
def deleteTodo {σ : Type} (pool : Pool σ) (req : Request) (db : σ) : Outcome σ :=
  let id := req.params.id
  let q : Query := ⟨"DELETE FROM todos WHERE id = $1 RETURNING *", [JsValue.str id]⟩
  match pool q db with
  | (.ok result, db1) =>
    if result.rows.length = 0 then
      ⟨⟨404, .error "Todo not found"⟩, [q], [], db1⟩
    else ⟨⟨200, .message "Todo deleted successfully"⟩, [q], [], db1⟩
  | (.error err, db1) =>
    ⟨⟨500, .error "Server error"⟩, [q], ["Error deleting todo: " ++ err.message], db1⟩

/-! ## Note handlers -/

/-- The handler `app.get('/api/notes')`. -/
def getNotes {σ : Type} (pool : Pool σ) (_req : Request) (db : σ) : Outcome σ :=
  let q : Query :=
    ⟨"SELECT id, title, created_at, updated_at FROM notes ORDER BY created_at DESC", []⟩
  match pool q db with
  | (.ok result, db1) => ⟨⟨200, .rows result.rows⟩, [q], [], db1⟩
  | (.error err, db1) =>
    ⟨⟨500, .error "Server error while fetching notes"⟩, [q],
      ["Error fetching notes: " ++ err.message], db1⟩

/-- The handler `app.get('/api/notes/:id')`. -/
def getNote {σ : Type} (pool : Pool σ) (req : Request) (db : σ) : Outcome σ :=
  let id := req.params.id
  let q : Query := ⟨"SELECT * FROM notes WHERE id = $1", [JsValue.str id]⟩
  match pool q db with
  | (.ok result, db1) =>
    if result.rows.length = 0 then
      ⟨⟨404, .error "Note not found"⟩, [q], [], db1⟩
    else ⟨⟨200, .row result.rows.head?⟩, [q], [], db1⟩
  | (.error err, db1) =>
    ⟨⟨500, .error "Server error while fetching note"⟩, [q],
      ["Error fetching note: " ++ err.message], db1⟩

/-- The handler `app.post('/api/notes')`. -/
def postNote {σ : Type} (pool : Pool σ) (req : Request) (db : σ) : Outcome σ :=
  let title := getProp req.body "title"
  let content := getProp req.body "content"
  if !content.toBoolean then
    ⟨⟨400, .error "Content is required"⟩, [], [], db⟩
  else
    let q : Query :=
      ⟨"INSERT INTO notes (title, content) VALUES ($1, $2) RETURNING *",
        [title.or JsValue.null, content]⟩
    match pool q db with
    | (.ok result, db1) => ⟨⟨201, .row result.rows.head?⟩, [q], [], db1⟩
    | (.error err, db1) =>
      ⟨⟨500, .error "Server error while creating note"⟩, [q],
        ["Error creating note: " ++ err.message], db1⟩

/-- The handler `app.put('/api/notes/:id')`. -/
def putNote {σ : Type} (pool : Pool σ) (req : Request) (db : σ) : Outcome σ :=
  let id := req.params.id
  let title := getProp req.body "title"
  let content := getProp req.body "content"
  if !content.toBoolean then
    ⟨⟨400, .error "Content is required"⟩, [], [], db⟩
  else
    let q : Query :=
      ⟨"UPDATE notes SET title = $1, content = $2, updated_at = CURRENT_TIMESTAMP WHERE id = $3 RETURNING *",
        [title.or JsValue.null, content, JsValue.str id]⟩
    match pool q db with
    | (.ok result, db1) =>
      if result.rows.length = 0 then
        ⟨⟨404, .error "Note not found"⟩, [q], [], db1⟩
      else ⟨⟨200, .row result.rows.head?⟩, [q], [], db1⟩
    | (.error err, db1) =>
      ⟨⟨500, .error "Server error while updating note"⟩, [q],
        ["Error updating note: " ++ err.message], db1⟩

/-- The handler `app.delete('/api/notes/:id')`. -/
def deleteNote {σ : Type} (pool : Pool σ) (req : Request) (db : σ) : Outcome σ :=
  let id := req.params.id
  let q : Query := ⟨"DELETE FROM notes WHERE id = $1 RETURNING *", [JsValue.str id]⟩
  match pool q db with
  | (.ok result, db1) =>
    if result.rows.length = 0 then
      ⟨⟨404, .error "Note not found"⟩, [q], [], db1⟩
    else ⟨⟨200, .message "Note deleted successfully"⟩, [q], [], db1⟩
  | (.error err, db1) =>
    ⟨⟨500, .error "Server error while deleting note"⟩, [q],
      ["Error deleting note: " ++ err.message], db1⟩

/-! ## The routes -/

/-- The nine routes the application registers. -/
inductive Route where
  | getTodos
  | postTodo
  | putTodo
  | deleteTodo
  | getNotes
  | getNote
  | postNote
  | putNote
  | deleteNote
  deriving DecidableEq

/-- The handler registered for a route. -/
def handle {σ : Type} : Route → Pool σ → Request → σ → Outcome σ
  | .getTodos => getTodos
  | .postTodo => postTodo
  | .putTodo => putTodo
  | .deleteTodo => deleteTodo
  | .getNotes => getNotes
  | .getNote => getNote
  | .postNote => postNote
  | .putNote => putNote
  | .deleteNote => deleteNote

/-- The message of the `{ error }` body in the `catch` block of each handler. -/
def serverErrorMessage : Route → String
  | .getTodos => "Server error"
  | .postTodo => "Server error"
  | .putTodo => "Server error"
  | .deleteTodo => "Server error"
  | .getNotes => "Server error while fetching notes"
  | .getNote => "Server error while fetching note"
  | .postNote => "Server error while creating note"
  | .putNote => "Server error while updating note"
  | .deleteNote => "Server error while deleting note"

/-- The store after a sequence of requests, handled one after the other. -/
def run {σ : Type} (pool : Pool σ) : List (Route × Request) → σ → σ
  | [], db => db
  | (r, req) :: rest, db => run pool rest (handle r pool req db).db

/-- The request `handleToggleTodo(id, completed)` of the client sends:
`axios.put` on `API_URL` followed by the id, with the body
`{ completed: !completed }` (`id` is the todo's id as the path renders it).
It is a request to the Todo update handler when `API_URL` is the `/api/todos`
endpoint of the server, which the comment above `API_URL` asks for; the
constant in `TodoList.js` is still the host of a database. -/
def handleToggleTodo (id : String) (completed : JsValue) : Request :=
  ⟨⟨id⟩, [("completed", JsValue.bool (!completed.toBoolean))]⟩

/-! ## The store -/

/-- Modelled from the spec: the state of the persistence store, which the
repository does not implement (section 3 gives the two tables and their
columns). It holds the rows of `todos` and `notes`, the next value of each id
sequence and the time `CURRENT_TIMESTAMP` reads. -/
structure Db where
  todos : List Todo
  notes : List Note
  nextTodoId : Int
  nextNoteId : Int
  now : Nat

/-- The statements the store model understands: the texts the handlers issue. -/
inductive Statement where
  | selectTodos
  | insertTodo
  | updateTodoTask
  | updateTodoCompleted
  | updateTodoBoth
  | deleteTodo
  | selectNotes
  | selectNote
  | insertNote
  | updateNote
  | deleteNote
  deriving DecidableEq

/-- Modelled from the spec: reading a statement text. Only the texts the
handlers can issue are recognised, character for character. -/
def parseStatement (text : String) : Option Statement :=
  if text = "SELECT * FROM todos ORDER BY id ASC" then some .selectTodos
  else if text = "INSERT INTO todos (task) VALUES ($1) RETURNING *" then some .insertTodo
  else if text = "UPDATE todos SET task = $1 WHERE id = $2 RETURNING *" then
    some .updateTodoTask
  else if text = "UPDATE todos SET completed = $1 WHERE id = $2 RETURNING *" then
    some .updateTodoCompleted
  else if text = "UPDATE todos SET task = $1, completed = $2 WHERE id = $3 RETURNING *" then
    some .updateTodoBoth
  else if text = "DELETE FROM todos WHERE id = $1 RETURNING *" then some .deleteTodo
  else if text = "SELECT id, title, created_at, updated_at FROM notes ORDER BY created_at DESC"
    then some .selectNotes
  else if text = "SELECT * FROM notes WHERE id = $1" then some .selectNote
  else if text = "INSERT INTO notes (title, content) VALUES ($1, $2) RETURNING *" then
    some .insertNote
  else if text = "UPDATE notes SET title = $1, content = $2, updated_at = CURRENT_TIMESTAMP WHERE id = $3 RETURNING *"
    then some .updateNote
  else if text = "DELETE FROM notes WHERE id = $1 RETURNING *" then some .deleteNote
  else none

/-- Modelled from the spec: the parameter the driver sends for a bound value.
`undefined` and `null` are sent as SQL `NULL`; a string is sent as it is, a
boolean as `true` or `false`, and a number, an array or an object as the text
the driver writes for it. -/
def prepareValue : JsValue → Option PgText
  | .undefined => none
  | .null => none
  | .bool b => some (.lit (if b then "true" else "false"))
  | .num n => some (.number n)
  | .str s => some (.lit s)
  | .arr items => some (.array items)
  | .obj props => some (.object props)

/-- The value of a decimal digit. -/
def digitValue (c : Char) : Option Nat :=
  if c.isDigit then some (c.toNat - 48) else none

/-- A non-empty run of decimal digits as a natural number. -/
def parseDigits : List Char → Option Nat
  | [] => none
  | c :: cs => (c :: cs).foldlM (fun acc d => (digitValue d).map (fun v => acc * 10 + v)) 0

/-- Modelled from the spec: the integer a path id denotes when the store
compares it with the integer column `id`: an optional sign and decimal digits.
Any other text is rejected by the store (the range of the column type is not
modelled). -/
def parseId (s : String) : Option Int :=
  match s.data with
  | '-' :: cs => (parseDigits cs).map (fun n => -(n : Int))
  | '+' :: cs => (parseDigits cs).map (fun n => (n : Int))
  | cs => (parseDigits cs).map (fun n => (n : Int))

/-- The integer a bound id parameter denotes; the handlers only ever bind the
path id, a string. -/
def idOf : Option PgText → Option Int
  | some (.lit s) => parseId s
  | _ => none

/-- The characters the store skips around a boolean. -/
def isSpace (c : Char) : Bool :=
  c = ' ' || c = '\t' || c = '\n' || c = '\r' || c = '\x0b' || c = '\x0c'

/-- A text without the blanks before and after it. -/
def trimSpaces (cs : List Char) : List Char :=
  ((cs.dropWhile isSpace).reverse.dropWhile isSpace).reverse

/-- Modelled from the spec: the boolean a text denotes when the store writes
it to the boolean column `completed`. Blanks around it are skipped and case is
ignored; `true`, `yes`, `on`, `1` and their unambiguous beginnings are true,
`false`, `no`, `off`, `0` and theirs are false; any other text is rejected. -/
def parseBool (s : String) : Option Bool :=
  let cs := (trimSpaces s.data).map Char.toLower
  match cs with
  | [] => none
  | ['1'] => some true
  | ['0'] => some false
  | 't' :: _ => if cs.isPrefixOf "true".data then some true else none
  | 'f' :: _ => if cs.isPrefixOf "false".data then some false else none
  | 'y' :: _ => if cs.isPrefixOf "yes".data then some true else none
  | 'n' :: _ => if cs.isPrefixOf "no".data then some false else none
  | 'o' :: _ :: _ =>
    if cs.isPrefixOf "on".data then some true
    else if cs.isPrefixOf "off".data then some false else none
  | _ => none

/-- The error of a statement the store cannot run as bound. -/
def invalidStatement : StoreError :=
  ⟨"bind message supplies the wrong number of parameters", "at Connection.parseE"⟩

/-- The error of an id that is no integer. -/
def invalidInteger : StoreError :=
  ⟨"invalid input for type integer", "at Connection.parseE"⟩

/-- The error of a value that is no boolean. -/
def invalidBoolean : StoreError :=
  ⟨"invalid input for type boolean", "at Connection.parseE"⟩

/-- Modelled from the spec: the value the boolean column `completed` takes from
a bound parameter. `NULL` stays `NULL`; a text is read by `parseBool`; the
text of a number is `1` for one and `0` for the two zeros, and no other number,
array or object has a text that reads as a boolean. -/
def boolOf : Option PgText → Except StoreError (Option Bool)
  | none => .ok none
  | some (.lit s) =>
    match parseBool s with
    | some b => .ok (some b)
    | none => .error invalidBoolean
  | some (.number (.real q)) =>
    if q = 1 then .ok (some true) else if q = 0 then .ok (some false)
    else .error invalidBoolean
  | some (.number .negZero) => .ok (some false)
  | some (.number _) => .error invalidBoolean
  | some (.array _) => .error invalidBoolean
  | some (.object _) => .error invalidBoolean

/-- The columns the notes listing selects. -/
def Note.toSummary (n : Note) : NoteSummary :=
  ⟨n.id, n.title, n.created_at, n.updated_at⟩

/-- The rows of `todos` after `UPDATE todos SET ... WHERE id = n`: every row
with the id rewritten by `set`, the others kept. -/
def updateTodos (todos : List Todo) (n : Int) (set : Todo → Todo) : List Todo :=
  todos.map (fun t => if t.id = n then set t else t)

/-- The rows of `notes` after `UPDATE notes SET ... WHERE id = n`. -/
def updateNotes (notes : List Note) (n : Int) (set : Note → Note) : List Note :=
  notes.map (fun x => if x.id = n then set x else x)

/-- Modelled from the spec: `pool.query` against the relational store of
section 3, for the statements the handlers issue. The parameters arrive as the
driver sends them (`prepareValue`) and are written to typed columns: `task`,
`title` and `content` are text, `completed` is boolean (`boolOf`), `id` is
integer (`idOf`). `INSERT` appends a row with the next id of the sequence
(`completed` defaults to `false`, both timestamps to the current time),
`UPDATE` assigns the columns of its `SET` list in every row with the id,
`DELETE` removes those rows, `RETURNING *` yields the rows written or removed,
`ORDER BY` sorts. No `NOT NULL` constraint is assumed. A statement fails,
leaving the store as it was, when its text or parameter count is unknown, its
id is no integer or its `completed` is no boolean. -/
def pgPool : Pool Db := fun q db =>
  match parseStatement q.text, q.params.map prepareValue with
  | some .selectTodos, [] =>
    (.ok ⟨(db.todos.insertionSort (fun a b => a.id ≤ b.id)).map Row.todo⟩, db)
  | some .insertTodo, [task] =>
    let t : Todo := ⟨db.nextTodoId, task, some false⟩
    (.ok ⟨[Row.todo t]⟩,
      { db with todos := db.todos ++ [t], nextTodoId := db.nextTodoId + 1 })
  | some .updateTodoTask, [task, id] =>
    match idOf id with
    | none => (.error invalidInteger, db)
    | some n =>
      let todos := updateTodos db.todos n (fun t => { t with task := task })
      (.ok ⟨(todos.filter (fun t => t.id = n)).map Row.todo⟩, { db with todos := todos })
  | some .updateTodoCompleted, [completed, id] =>
    match boolOf completed, idOf id with
    | .error e, _ => (.error e, db)
    | .ok _, none => (.error invalidInteger, db)
    | .ok b, some n =>
      let todos := updateTodos db.todos n (fun t => { t with completed := b })
      (.ok ⟨(todos.filter (fun t => t.id = n)).map Row.todo⟩, { db with todos := todos })
  | some .updateTodoBoth, [task, completed, id] =>
    match boolOf completed, idOf id with
    | .error e, _ => (.error e, db)
    | .ok _, none => (.error invalidInteger, db)
    | .ok b, some n =>
      let todos := updateTodos db.todos n (fun t => { t with task := task, completed := b })
      (.ok ⟨(todos.filter (fun t => t.id = n)).map Row.todo⟩, { db with todos := todos })
  | some .deleteTodo, [id] =>
    match idOf id with
    | none => (.error invalidInteger, db)
    | some n =>
      (.ok ⟨(db.todos.filter (fun t => t.id = n)).map Row.todo⟩,
        { db with todos := db.todos.filter (fun t => ¬ t.id = n) })
  | some .selectNotes, [] =>
    (.ok ⟨(db.notes.insertionSort (fun a b => b.created_at ≤ a.created_at)).map
      (fun n => Row.summary n.toSummary)⟩, db)
  | some .selectNote, [id] =>
    match idOf id with
    | none => (.error invalidInteger, db)
    | some n => (.ok ⟨(db.notes.filter (fun x => x.id = n)).map Row.note⟩, db)
  | some .insertNote, [title, content] =>
    let n : Note := ⟨db.nextNoteId, title, content, db.now, db.now⟩
    (.ok ⟨[Row.note n]⟩,
      { db with notes := db.notes ++ [n], nextNoteId := db.nextNoteId + 1 })
  | some .updateNote, [title, content, id] =>
    match idOf id with
    | none => (.error invalidInteger, db)
    | some n =>
      let notes := updateNotes db.notes n
        (fun x => { x with title := title, content := content, updated_at := db.now })
      (.ok ⟨(notes.filter (fun x => x.id = n)).map Row.note⟩, { db with notes := notes })
  | some .deleteNote, [id] =>
    match idOf id with
    | none => (.error invalidInteger, db)
    | some n =>
      (.ok ⟨(db.notes.filter (fun x => x.id = n)).map Row.note⟩,
        { db with notes := db.notes.filter (fun x => ¬ x.id = n) })
  | _, _ => (.error invalidStatement, db)

/-- The JavaScript value a result row holds for a boolean column. -/
def jsOfBool : Option Bool → JsValue
  | none => JsValue.null
  | some b => JsValue.bool b

/-- A pool whose store is unreachable: every statement fails with `e`. -/
def failingPool (e : StoreError) : Pool Db := fun _ db => (.error e, db)

/-- The ids in use lie below the next value of their sequence: the sequence
never hands out an id a row already has. -/
def Db.WellFormed (db : Db) : Prop :=
  (∀ t ∈ db.todos, t.id < db.nextTodoId) ∧ (∀ n ∈ db.notes, n.id < db.nextNoteId)

/-- No stored note has a null `content`. -/
def ContentNonNull (db : Db) : Prop :=
  ∀ n ∈ db.notes, n.content ≠ none

/-! ## The update statement, as the specification words it -/

/-- The sub-list of `[task, completed]`, in that order, whose value in the
body is not `undefined`. -/
def presentFields (body : JsObject) : List (String × JsValue) :=
  [("task", getProp body "task"), ("completed", getProp body "completed")].filter
    (fun f => !f.2.isUndefined)

/-- The reference statement text for the present fields `F`: the clauses
`f_i = $i` for `i = 1..n` joined by a comma and a blank, then the `WHERE`
clause on placeholder `n + 1`. -/
def referenceText (F : List (String × JsValue)) : String :=
  "UPDATE todos SET " ++
    String.intercalate ", " ((F.enumFrom 1).map (fun p => p.2.1 ++ " = $" ++ toString p.1)) ++
    " WHERE id = $" ++ toString (F.length + 1) ++ " RETURNING *"

/-- The reference parameter list: the values of `F` in order, then the path id. -/
def referenceParams (F : List (String × JsValue)) (id : String) : List JsValue :=
  F.map (fun f => f.2) ++ [JsValue.str id]

/-! ## Basic facts -/

theorem JsValue.isUndefined_eq_true {v : JsValue} :
    v.isUndefined = true ↔ v = JsValue.undefined := by
  cases v <;> simp [JsValue.isUndefined]

theorem JsValue.isUndefined_eq_false {v : JsValue} :
    v.isUndefined = false ↔ v ≠ JsValue.undefined := by
  cases v <;> simp [JsValue.isUndefined]

theorem JsNumber.falsy_iff {n : JsNumber} :
    n.toBoolean = false ↔ n = JsNumber.nan ∨ n = JsNumber.negZero ∨ n = JsNumber.real 0 := by
  cases n <;> simp [JsNumber.toBoolean]

theorem JsValue.toBoolean_eq_false {v : JsValue} :
    v.toBoolean = false ↔
      v = JsValue.undefined ∨ v = JsValue.null ∨ v = JsValue.bool false ∨
      v = JsValue.num JsNumber.nan ∨ v = JsValue.num JsNumber.negZero ∨
      v = JsValue.num (JsNumber.real 0) ∨ v = JsValue.str "" := by
  cases v <;> simp [JsValue.toBoolean, JsNumber.falsy_iff]

/-- A truthy value is neither `null` nor `undefined`. -/
theorem JsValue.ne_null_of_toBoolean {v : JsValue} (h : v.toBoolean = true) :
    v ≠ JsValue.null ∧ v ≠ JsValue.undefined := by
  cases v <;> simp [JsValue.toBoolean] at h ⊢

/-- A truthy value is sent as a text, not as `NULL`. -/
theorem prepareValue_ne_none {v : JsValue} (h : v.toBoolean = true) :
    prepareValue v ≠ none := by
  cases v <;> simp [JsValue.toBoolean, prepareValue] at h ⊢

/-- The value bound for a title, `title || null`, is `NULL` when the title is
falsy and the title as sent otherwise. -/
theorem prepareValue_or_null (v : JsValue) :
    prepareValue (v.or JsValue.null) = if v.toBoolean then prepareValue v else none := by
  unfold JsValue.or
  split <;> rfl

/-- A submitted boolean is written to a boolean column as it is. -/
theorem boolOf_prepareValue_bool (b : Bool) :
    boolOf (prepareValue (JsValue.bool b)) = .ok (some b) := by
  cases b <;> rfl

/-- The update handler with a field present: the statement of the reference is
handed to the pool and the response follows the result. -/
theorem putTodo_of_present {σ : Type} (pool : Pool σ) (req : Request) (db : σ)
    (h : (getProp req.body "task").isUndefined = false ∨
      (getProp req.body "completed").isUndefined = false) :
    putTodo pool req db =
      (let q : Query := ⟨referenceText (presentFields req.body),
        referenceParams (presentFields req.body) req.params.id⟩
      match pool q db with
      | (.ok result, db1) =>
        if result.rows.length = 0 then
          ⟨⟨404, .error "Todo not found"⟩, [q], [], db1⟩
        else ⟨⟨200, .row result.rows.head?⟩, [q], [], db1⟩
      | (.error err, db1) =>
        ⟨⟨500, .error "Server error"⟩, [q], ["Error updating todo: " ++ err.message], db1⟩) := by
  unfold putTodo presentFields
  generalize getProp req.body "task" = t at h ⊢
  generalize getProp req.body "completed" = c at h ⊢
  cases h1 : t.isUndefined <;> cases h2 : c.isUndefined
  · simp [h1, h2]; rfl
  · simp [h1, h2]; rfl
  · simp [h1, h2]; rfl
  · simp [h1, h2] at h

/-- The update handler with no field present answers 400 and stops. -/
theorem putTodo_of_absent {σ : Type} (pool : Pool σ) (req : Request) (db : σ)
    (ht : getProp req.body "task" = JsValue.undefined)
    (hc : getProp req.body "completed" = JsValue.undefined) :
    putTodo pool req db = ⟨⟨400, .error "No fields to update"⟩, [], [], db⟩ := by
  unfold putTodo
  simp [ht, hc, JsValue.isUndefined]

/-- The Todo create handler past its validation. -/
theorem postTodo_of_truthy {σ : Type} (pool : Pool σ) (req : Request) (db : σ)
    (h : (getProp req.body "task").toBoolean = true) :
    postTodo pool req db =
      (let q : Query :=
        ⟨"INSERT INTO todos (task) VALUES ($1) RETURNING *", [getProp req.body "task"]⟩
      match pool q db with
      | (.ok result, db1) => ⟨⟨201, .row result.rows.head?⟩, [q], [], db1⟩
      | (.error err, db1) =>
        ⟨⟨500, .error "Server error"⟩, [q], ["Error creating todo: " ++ err.message], db1⟩) := by
  simp [postTodo, h]

/-- The Todo create handler stopped by its validation. -/
theorem postTodo_of_falsy {σ : Type} (pool : Pool σ) (req : Request) (db : σ)
    (h : (getProp req.body "task").toBoolean = false) :
    postTodo pool req db = ⟨⟨400, .error "Task is required"⟩, [], [], db⟩ := by
  simp [postTodo, h]

/-- The Note create handler stopped by its validation. -/
theorem postNote_of_falsy {σ : Type} (pool : Pool σ) (req : Request) (db : σ)
    (h : (getProp req.body "content").toBoolean = false) :
    postNote pool req db = ⟨⟨400, .error "Content is required"⟩, [], [], db⟩ := by
  simp [postNote, h]

/-- The Note create handler past its validation. -/
theorem postNote_of_truthy {σ : Type} (pool : Pool σ) (req : Request) (db : σ)
    (h : (getProp req.body "content").toBoolean = true) :
    postNote pool req db =
      (let q : Query :=
        ⟨"INSERT INTO notes (title, content) VALUES ($1, $2) RETURNING *",
          [(getProp req.body "title").or JsValue.null, getProp req.body "content"]⟩
      match pool q db with
      | (.ok result, db1) => ⟨⟨201, .row result.rows.head?⟩, [q], [], db1⟩
      | (.error err, db1) =>
        ⟨⟨500, .error "Server error while creating note"⟩, [q],
          ["Error creating note: " ++ err.message], db1⟩) := by
  simp [postNote, h]

/-- The Note update handler stopped by its validation. -/
theorem putNote_of_falsy {σ : Type} (pool : Pool σ) (req : Request) (db : σ)
    (h : (getProp req.body "content").toBoolean = false) :
    putNote pool req db = ⟨⟨400, .error "Content is required"⟩, [], [], db⟩ := by
  simp [putNote, h]

/-- The Note update handler past its validation. -/
theorem putNote_of_truthy {σ : Type} (pool : Pool σ) (req : Request) (db : σ)
    (h : (getProp req.body "content").toBoolean = true) :
    putNote pool req db =
      (let q : Query :=
        ⟨"UPDATE notes SET title = $1, content = $2, updated_at = CURRENT_TIMESTAMP WHERE id = $3 RETURNING *",
          [(getProp req.body "title").or JsValue.null, getProp req.body "content",
            JsValue.str req.params.id]⟩
      match pool q db with
      | (.ok result, db1) =>
        if result.rows.length = 0 then
          ⟨⟨404, .error "Note not found"⟩, [q], [], db1⟩
        else ⟨⟨200, .row result.rows.head?⟩, [q], [], db1⟩
      | (.error err, db1) =>
        ⟨⟨500, .error "Server error while updating note"⟩, [q],
          ["Error updating note: " ++ err.message], db1⟩) := by
  simp [putNote, h]

/-! ## The statements a pool is handed -/

theorem getTodos_recording {σ : Type} (pool : Pool σ) (req : Request) (db : σ)
    (seen : List Query) :
    getTodos (recording pool) req (db, seen) = observed (getTodos pool req db) seen := by
  simp only [getTodos, recording, observed]
  generalize pool _ db = res
  obtain ⟨r, db1⟩ := res
  cases r <;> rfl

theorem deleteTodo_recording {σ : Type} (pool : Pool σ) (req : Request) (db : σ)
    (seen : List Query) :
    deleteTodo (recording pool) req (db, seen) = observed (deleteTodo pool req db) seen := by
  simp only [deleteTodo, recording, observed]
  generalize pool _ db = res
  obtain ⟨r, db1⟩ := res
  cases r
  · rfl
  · dsimp only; split <;> rfl

theorem getNotes_recording {σ : Type} (pool : Pool σ) (req : Request) (db : σ)
    (seen : List Query) :
    getNotes (recording pool) req (db, seen) = observed (getNotes pool req db) seen := by
  simp only [getNotes, recording, observed]
  generalize pool _ db = res
  obtain ⟨r, db1⟩ := res
  cases r <;> rfl

theorem getNote_recording {σ : Type} (pool : Pool σ) (req : Request) (db : σ)
    (seen : List Query) :
    getNote (recording pool) req (db, seen) = observed (getNote pool req db) seen := by
  simp only [getNote, recording, observed]
  generalize pool _ db = res
  obtain ⟨r, db1⟩ := res
  cases r
  · rfl
  · dsimp only; split <;> rfl

theorem deleteNote_recording {σ : Type} (pool : Pool σ) (req : Request) (db : σ)
    (seen : List Query) :
    deleteNote (recording pool) req (db, seen) = observed (deleteNote pool req db) seen := by
  simp only [deleteNote, recording, observed]
  generalize pool _ db = res
  obtain ⟨r, db1⟩ := res
  cases r
  · rfl
  · dsimp only; split <;> rfl

theorem postTodo_recording {σ : Type} (pool : Pool σ) (req : Request) (db : σ)
    (seen : List Query) :
    postTodo (recording pool) req (db, seen) = observed (postTodo pool req db) seen := by
  cases hv : (getProp req.body "task").toBoolean
  · rw [postTodo_of_falsy _ req _ hv, postTodo_of_falsy _ req _ hv]
    simp [observed]
  · rw [postTodo_of_truthy _ req _ hv, postTodo_of_truthy _ req _ hv]
    simp only [recording, observed]
    generalize pool _ db = res
    obtain ⟨r, db1⟩ := res
    cases r <;> rfl

theorem postNote_recording {σ : Type} (pool : Pool σ) (req : Request) (db : σ)
    (seen : List Query) :
    postNote (recording pool) req (db, seen) = observed (postNote pool req db) seen := by
  cases hv : (getProp req.body "content").toBoolean
  · rw [postNote_of_falsy _ req _ hv, postNote_of_falsy _ req _ hv]
    simp [observed]
  · rw [postNote_of_truthy _ req _ hv, postNote_of_truthy _ req _ hv]
    simp only [recording, observed]
    generalize pool _ db = res
    obtain ⟨r, db1⟩ := res
    cases r <;> rfl

theorem putNote_recording {σ : Type} (pool : Pool σ) (req : Request) (db : σ)
    (seen : List Query) :
    putNote (recording pool) req (db, seen) = observed (putNote pool req db) seen := by
  cases hv : (getProp req.body "content").toBoolean
  · rw [putNote_of_falsy _ req _ hv, putNote_of_falsy _ req _ hv]
    simp [observed]
  · rw [putNote_of_truthy _ req _ hv, putNote_of_truthy _ req _ hv]
    simp only [recording, observed]
    generalize pool _ db = res
    obtain ⟨r, db1⟩ := res
    cases r
    · rfl
    · dsimp only; split <;> rfl

theorem putTodo_recording {σ : Type} (pool : Pool σ) (req : Request) (db : σ)
    (seen : List Query) :
    putTodo (recording pool) req (db, seen) = observed (putTodo pool req db) seen := by
  by_cases hv : (getProp req.body "task").isUndefined = false ∨
      (getProp req.body "completed").isUndefined = false
  · rw [putTodo_of_present _ req _ hv, putTodo_of_present _ req _ hv]
    simp only [recording, observed]
    generalize pool _ db = res
    obtain ⟨r, db1⟩ := res
    cases r
    · rfl
    · dsimp only; split <;> rfl
  · simp only [not_or, Bool.not_eq_false, JsValue.isUndefined_eq_true] at hv
    rw [putTodo_of_absent _ req _ hv.1 hv.2, putTodo_of_absent _ req _ hv.1 hv.2]
    simp [observed]

/-- The statements an observed pool is handed by a handler are the statements
the handler issues, whatever the route, the pool and the request. -/
theorem handle_recording {σ : Type} (r : Route) (pool : Pool σ) (req : Request) (db : σ)
    (seen : List Query) :
    handle r (recording pool) req (db, seen) = observed (handle r pool req db) seen := by
  cases r <;> simp only [handle]
  · exact getTodos_recording pool req db seen
  · exact postTodo_recording pool req db seen
  · exact putTodo_recording pool req db seen
  · exact deleteTodo_recording pool req db seen
  · exact getNotes_recording pool req db seen
  · exact getNote_recording pool req db seen
  · exact postNote_recording pool req db seen
  · exact putNote_recording pool req db seen
  · exact deleteNote_recording pool req db seen

/-! ## The store on the statements of the handlers -/

theorem pgPool_selectTodos (db : Db) :
    pgPool ⟨"SELECT * FROM todos ORDER BY id ASC", []⟩ db =
      (.ok ⟨(db.todos.insertionSort (fun a b => a.id ≤ b.id)).map Row.todo⟩, db) := rfl

theorem pgPool_insertTodo (task : JsValue) (db : Db) :
    pgPool ⟨"INSERT INTO todos (task) VALUES ($1) RETURNING *", [task]⟩ db =
      (.ok ⟨[Row.todo ⟨db.nextTodoId, prepareValue task, some false⟩]⟩,
        { db with
          todos := db.todos ++ [⟨db.nextTodoId, prepareValue task, some false⟩],
          nextTodoId := db.nextTodoId + 1 }) := rfl

theorem pgPool_updateTodoTask (task : JsValue) (id : String) (db : Db) :
    pgPool ⟨"UPDATE todos SET task = $1 WHERE id = $2 RETURNING *", [task, JsValue.str id]⟩ db =
      (match parseId id with
      | none => (.error invalidInteger, db)
      | some n =>
        (.ok ⟨((updateTodos db.todos n (fun t => { t with task := prepareValue task })).filter
            (fun t => t.id = n)).map Row.todo⟩,
          { db with todos :=
            (updateTodos db.todos n (fun t => { t with task := prepareValue task })) })) := rfl

theorem pgPool_updateTodoCompleted (completed : JsValue) (id : String) (db : Db) :
    pgPool ⟨"UPDATE todos SET completed = $1 WHERE id = $2 RETURNING *",
        [completed, JsValue.str id]⟩ db =
      (match boolOf (prepareValue completed), parseId id with
      | .error e, _ => (.error e, db)
      | .ok _, none => (.error invalidInteger, db)
      | .ok b, some n =>
        (.ok ⟨((updateTodos db.todos n (fun t => { t with completed := b })).filter
            (fun t => t.id = n)).map Row.todo⟩,
          { db with todos := updateTodos db.todos n (fun t => { t with completed := b }) })) :=
  rfl

theorem pgPool_updateTodoBoth (task completed : JsValue) (id : String) (db : Db) :
    pgPool ⟨"UPDATE todos SET task = $1, completed = $2 WHERE id = $3 RETURNING *",
        [task, completed, JsValue.str id]⟩ db =
      (match boolOf (prepareValue completed), parseId id with
      | .error e, _ => (.error e, db)
      | .ok _, none => (.error invalidInteger, db)
      | .ok b, some n =>
        (.ok ⟨((updateTodos db.todos n
            (fun t => { t with task := prepareValue task, completed := b })).filter
              (fun t => t.id = n)).map Row.todo⟩,
          { db with todos := (updateTodos db.todos n
            (fun t => { t with task := prepareValue task, completed := b })) })) := rfl

theorem pgPool_deleteTodo (id : String) (db : Db) :
    pgPool ⟨"DELETE FROM todos WHERE id = $1 RETURNING *", [JsValue.str id]⟩ db =
      (match parseId id with
      | none => (.error invalidInteger, db)
      | some n =>
        (.ok ⟨(db.todos.filter (fun t => t.id = n)).map Row.todo⟩,
          { db with todos := db.todos.filter (fun t => ¬ t.id = n) })) := rfl

theorem pgPool_selectNotes (db : Db) :
    pgPool ⟨"SELECT id, title, created_at, updated_at FROM notes ORDER BY created_at DESC",
        []⟩ db =
      (.ok ⟨(db.notes.insertionSort (fun a b => b.created_at ≤ a.created_at)).map
        (fun n => Row.summary n.toSummary)⟩, db) := rfl

theorem pgPool_selectNote (id : String) (db : Db) :
    pgPool ⟨"SELECT * FROM notes WHERE id = $1", [JsValue.str id]⟩ db =
      (match parseId id with
      | none => (.error invalidInteger, db)
      | some n => (.ok ⟨(db.notes.filter (fun x => x.id = n)).map Row.note⟩, db)) := rfl

theorem pgPool_insertNote (title content : JsValue) (db : Db) :
    pgPool ⟨"INSERT INTO notes (title, content) VALUES ($1, $2) RETURNING *",
        [title, content]⟩ db =
      (.ok ⟨[Row.note ⟨db.nextNoteId, prepareValue title, prepareValue content, db.now,
          db.now⟩]⟩,
        { db with
          notes := db.notes ++
            [⟨db.nextNoteId, prepareValue title, prepareValue content, db.now, db.now⟩],
          nextNoteId := db.nextNoteId + 1 }) := rfl

theorem pgPool_updateNote (title content : JsValue) (id : String) (db : Db) :
    pgPool ⟨"UPDATE notes SET title = $1, content = $2, updated_at = CURRENT_TIMESTAMP WHERE id = $3 RETURNING *",
        [title, content, JsValue.str id]⟩ db =
      (match parseId id with
      | none => (.error invalidInteger, db)
      | some n =>
        (.ok ⟨((updateNotes db.notes n (fun x =>
              { x with title := prepareValue title, content := prepareValue content,
                       updated_at := db.now })).filter (fun x => x.id = n)).map Row.note⟩,
          { db with notes := (updateNotes db.notes n (fun x =>
              { x with title := prepareValue title, content := prepareValue content,
                       updated_at := db.now })) })) := rfl

theorem pgPool_deleteNote (id : String) (db : Db) :
    pgPool ⟨"DELETE FROM notes WHERE id = $1 RETURNING *", [JsValue.str id]⟩ db =
      (match parseId id with
      | none => (.error invalidInteger, db)
      | some n =>
        (.ok ⟨(db.notes.filter (fun x => x.id = n)).map Row.note⟩,
          { db with notes := db.notes.filter (fun x => ¬ x.id = n) })) := rfl

/-- An update that leaves `id` and `task` alone leaves them alone in every row. -/
theorem updateTodos_keeps (todos : List Todo) (n : Int) (set : Todo → Todo)
    (h : ∀ t, ((set t).id, (set t).task) = (t.id, t.task)) :
    (updateTodos todos n set).map (fun t => (t.id, t.task)) =
      todos.map (fun t => (t.id, t.task)) := by
  unfold updateTodos
  rw [List.map_map]
  apply List.map_congr_left
  intro t _
  by_cases ht : t.id = n <;> simp [ht, h t]

/-- The statement of the update handler in each of the three cases of a
present field. -/
theorem reference_query_cases (body : JsObject) (id : String) :
    (getProp body "task" ≠ JsValue.undefined → getProp body "completed" = JsValue.undefined →
      (⟨referenceText (presentFields body), referenceParams (presentFields body) id⟩ : Query) =
        ⟨"UPDATE todos SET task = $1 WHERE id = $2 RETURNING *",
          [getProp body "task", JsValue.str id]⟩) ∧
    (getProp body "task" = JsValue.undefined → getProp body "completed" ≠ JsValue.undefined →
      (⟨referenceText (presentFields body), referenceParams (presentFields body) id⟩ : Query) =
        ⟨"UPDATE todos SET completed = $1 WHERE id = $2 RETURNING *",
          [getProp body "completed", JsValue.str id]⟩) ∧
    (getProp body "task" ≠ JsValue.undefined → getProp body "completed" ≠ JsValue.undefined →
      (⟨referenceText (presentFields body), referenceParams (presentFields body) id⟩ : Query) =
        ⟨"UPDATE todos SET task = $1, completed = $2 WHERE id = $3 RETURNING *",
          [getProp body "task", getProp body "completed", JsValue.str id]⟩) := by
  refine ⟨?_, ?_, ?_⟩
  · intro ht hc
    have hp : presentFields body = [("task", getProp body "task")] := by
      simp [presentFields, hc, JsValue.isUndefined, JsValue.isUndefined_eq_false.mpr ht]
    rw [hp]
    simp [referenceText, referenceParams, List.enumFrom, String.intercalate,
      String.intercalate.go]
    decide
  · intro ht hc
    have hp : presentFields body = [("completed", getProp body "completed")] := by
      simp [presentFields, ht, JsValue.isUndefined, JsValue.isUndefined_eq_false.mpr hc]
    rw [hp]
    simp [referenceText, referenceParams, List.enumFrom, String.intercalate,
      String.intercalate.go]
    decide
  · intro ht hc
    have hp : presentFields body =
        [("task", getProp body "task"), ("completed", getProp body "completed")] := by
      simp [presentFields, JsValue.isUndefined_eq_false.mpr ht,
        JsValue.isUndefined_eq_false.mpr hc]
    rw [hp]
    simp [referenceText, referenceParams, List.enumFrom, String.intercalate,
      String.intercalate.go]
    decide

/-- The Todo update handler never touches the notes. -/
theorem putTodo_pgPool_notes (req : Request) (db : Db) :
    (putTodo pgPool req db).db.notes = db.notes := by
  by_cases ht : getProp req.body "task" = JsValue.undefined <;>
    by_cases hc : getProp req.body "completed" = JsValue.undefined
  · rw [putTodo_of_absent pgPool req db ht hc]
  · rw [putTodo_of_present pgPool req db (Or.inr (JsValue.isUndefined_eq_false.mpr hc))]
    dsimp only
    rw [(reference_query_cases req.body req.params.id).2.1 ht hc, pgPool_updateTodoCompleted]
    cases boolOf (prepareValue (getProp req.body "completed")) <;>
      cases parseId req.params.id <;> first | rfl | (dsimp only; split <;> rfl)
  · rw [putTodo_of_present pgPool req db (Or.inl (JsValue.isUndefined_eq_false.mpr ht))]
    dsimp only
    rw [(reference_query_cases req.body req.params.id).1 ht hc, pgPool_updateTodoTask]
    cases parseId req.params.id <;> first | rfl | (dsimp only; split <;> rfl)
  · rw [putTodo_of_present pgPool req db (Or.inl (JsValue.isUndefined_eq_false.mpr ht))]
    dsimp only
    rw [(reference_query_cases req.body req.params.id).2.2 ht hc, pgPool_updateTodoBoth]
    cases boolOf (prepareValue (getProp req.body "completed")) <;>
      cases parseId req.params.id <;> first | rfl | (dsimp only; split <;> rfl)

/-- Every handler keeps `ContentNonNull`. -/
theorem handle_contentNonNull (r : Route) (req : Request) (db : Db)
    (h : ContentNonNull db) : ContentNonNull (handle r pgPool req db).db := by
  cases r <;> simp only [handle]
  · simpa [getTodos, pgPool_selectTodos] using h
  · cases hv : (getProp req.body "task").toBoolean
    · simpa [postTodo, hv] using h
    · rw [postTodo_of_truthy pgPool req db hv]
      simpa [pgPool_insertTodo] using h
  · intro n hn
    rw [putTodo_pgPool_notes] at hn
    exact h n hn
  · simp only [deleteTodo, pgPool_deleteTodo]
    cases parseId req.params.id with
    | none => exact h
    | some n => dsimp only; split <;> exact h
  · simpa [getNotes, pgPool_selectNotes] using h
  · simp only [getNote, pgPool_selectNote]
    cases parseId req.params.id with
    | none => exact h
    | some n => dsimp only; split <;> exact h
  · cases hv : (getProp req.body "content").toBoolean
    · rw [postNote_of_falsy pgPool req db hv]; exact h
    · rw [postNote_of_truthy pgPool req db hv]
      simp only [pgPool_insertNote]
      intro n hn
      simp only [List.mem_append, List.mem_singleton] at hn
      rcases hn with hn | hn
      · exact h n hn
      · subst hn
        exact prepareValue_ne_none hv
  · cases hv : (getProp req.body "content").toBoolean
    · rw [putNote_of_falsy pgPool req db hv]; exact h
    · rw [putNote_of_truthy pgPool req db hv]
      simp only [pgPool_updateNote]
      have key : ∀ m : Int, ContentNonNull { db with notes := (updateNotes db.notes m (fun x =>
            { x with title := prepareValue ((getProp req.body "title").or JsValue.null),
                     content := prepareValue (getProp req.body "content"),
                     updated_at := db.now })) } := by
        intro m n hn
        simp only [updateNotes, List.mem_map] at hn
        obtain ⟨x, hx, rfl⟩ := hn
        by_cases hxm : x.id = m
        · simp only [hxm, if_true]
          exact prepareValue_ne_none hv
        · simp only [hxm, if_false]
          exact h x hx
      cases parseId req.params.id with
      | none => exact h
      | some n => dsimp only; split <;> exact key n
  · simp only [deleteNote, pgPool_deleteNote]
    cases parseId req.params.id with
    | none => exact h
    | some n =>
      dsimp only
      have key : ContentNonNull { db with notes := db.notes.filter (fun x => ¬ x.id = n) } := by
        intro x hx
        exact h x (List.mem_of_mem_filter hx)
      split <;> exact key

/-- Any sequence of requests keeps `ContentNonNull`. -/
theorem run_contentNonNull (calls : List (Route × Request)) :
    ∀ db : Db, ContentNonNull db → ContentNonNull (run pgPool calls db) := by
  induction calls with
  | nil => intro db h; exact h
  | cons c rest ih =>
    intro db h
    obtain ⟨r, req⟩ := c
    exact ih _ (handle_contentNonNull r req db h)

/-- Among the rows of before and a new row with the next id, only the new row
has that id. -/
theorem filter_append_new {α : Type} (key : α → Int) (l : List α) (x : α)
    (h : ∀ y ∈ l, key y < key x) :
    (l ++ [x]).filter (fun y => key y = key x) = [x] := by
  rw [List.filter_append]
  have h1 : l.filter (fun y => key y = key x) = [] := by
    rw [List.filter_eq_nil_iff]
    intro y hy
    have := h y hy
    simp only [decide_eq_true_eq]
    omega
  simp [h1]

/-- The update handler on a body with `completed` and no `task`, against the
store: one statement, assigning `completed` only, and the rows it leaves. -/
theorem putTodo_completed_only (db : Db) (req : Request)
    (ht : getProp req.body "task" = JsValue.undefined)
    (hc : getProp req.body "completed" ≠ JsValue.undefined) :
    (putTodo pgPool req db).issued =
        [⟨"UPDATE todos SET completed = $1 WHERE id = $2 RETURNING *",
          [getProp req.body "completed", JsValue.str req.params.id]⟩] ∧
      (putTodo pgPool req db).db.todos.map (fun t => (t.id, t.task)) =
        db.todos.map (fun t => (t.id, t.task)) ∧
      (∀ (n : Int) (b : Option Bool), parseId req.params.id = some n →
        boolOf (prepareValue (getProp req.body "completed")) = .ok b →
        (putTodo pgPool req db).db.todos =
          updateTodos db.todos n (fun t => { t with completed := b })) ∧
      (∀ e : StoreError, boolOf (prepareValue (getProp req.body "completed")) = .error e →
        (putTodo pgPool req db).response = ⟨500, .error "Server error"⟩ ∧
        (putTodo pgPool req db).db = db) := by
  rw [putTodo_of_present pgPool req db (Or.inr (JsValue.isUndefined_eq_false.mpr hc))]
  dsimp only
  rw [(reference_query_cases req.body req.params.id).2.1 ht hc, pgPool_updateTodoCompleted]
  cases hb : boolOf (prepareValue (getProp req.body "completed")) with
  | error e => simp
  | ok b =>
    cases hid : parseId req.params.id with
    | none => simp
    | some n =>
      dsimp only
      refine ⟨?_, ?_, ?_, ?_⟩
      · split <;> rfl
      · split <;> exact updateTodos_keeps db.todos n _ (fun _ => rfl)
      · intro m b2 hm hb2
        cases hm
        cases hb2
        split <;> rfl
      · intro e he
        cases he

/-! ## The claims -/

/-- C1: when `task` or `completed` is not undefined in the body, the Todo update
handler hands the pool exactly one statement, the one of the reference: its
text is `UPDATE todos SET`, the clauses `f_i = $i` of the present fields in the
order task, completed, and `WHERE id = $(n+1) RETURNING *`; its parameters are
the values of the present fields in that order followed by the path id, so
there are `n + 1` of them and placeholder `$i` binds the value of `f_i`. No
field that is undefined in the body is among the present fields. -/
theorem putTodo_issues_reference_statement {σ : Type} (pool : Pool σ) (req : Request) (db : σ)
    (h : getProp req.body "task" ≠ JsValue.undefined ∨
      getProp req.body "completed" ≠ JsValue.undefined) :
    (putTodo (recording pool) req (db, [])).db.2 =
        [⟨referenceText (presentFields req.body),
          referenceParams (presentFields req.body) req.params.id⟩] ∧
      (putTodo pool req db).issued =
        [⟨referenceText (presentFields req.body),
          referenceParams (presentFields req.body) req.params.id⟩] ∧
      (referenceParams (presentFields req.body) req.params.id).length =
        (presentFields req.body).length + 1 ∧
      (∀ (i : Nat) (f : String × JsValue), (presentFields req.body)[i]? = some f →
        (referenceParams (presentFields req.body) req.params.id)[i]? = some f.2) ∧
      (referenceParams (presentFields req.body) req.params.id)[(presentFields req.body).length]? =
        some (JsValue.str req.params.id) ∧
      (∀ f ∈ presentFields req.body, f.2 ≠ JsValue.undefined) := by
  have h0 : (getProp req.body "task").isUndefined = false ∨
      (getProp req.body "completed").isUndefined = false := by
    simpa [JsValue.isUndefined_eq_false] using h
  have hi : (putTodo pool req db).issued =
      [⟨referenceText (presentFields req.body),
        referenceParams (presentFields req.body) req.params.id⟩] := by
    rw [putTodo_of_present pool req db h0]
    dsimp only
    split
    · split <;> rfl
    · rfl
  refine ⟨?_, hi, ?_, ?_, ?_, ?_⟩
  · rw [putTodo_recording pool req db []]
    simp only [observed, List.nil_append]
    exact hi
  · simp [referenceParams]
  · intro i f hf
    rcases List.getElem?_eq_some_iff.mp hf with ⟨hi, hget⟩
    simp [referenceParams, List.getElem?_append_left, hi, hget]
  · simp [referenceParams, List.getElem?_append_right]
  · intro f hf
    simp only [presentFields, List.mem_filter] at hf
    have := hf.2
    simpa [JsValue.isUndefined_eq_false] using this

/-- C1 at the body `{ completed: true }` and the path id `7`: the statement the
store is handed. -/
theorem putTodo_issues_reference_statement_witness :
    (putTodo (recording pgPool) ⟨⟨"7"⟩, [("completed", JsValue.bool true)]⟩
        (⟨[], [], 1, 1, 0⟩, [])).db.2 =
      [⟨"UPDATE todos SET completed = $1 WHERE id = $2 RETURNING *",
        [JsValue.bool true, JsValue.str "7"]⟩] :=
  (putTodo_issues_reference_statement pgPool ⟨⟨"7"⟩, [("completed", JsValue.bool true)]⟩
    ⟨[], [], 1, 1, 0⟩ (Or.inr (by simp [getProp, List.lookup]))).1

/-- C2: a Todo update whose body has neither `task` nor `completed` is
answered 400 `No fields to update` whatever the path id and the store; no
statement is issued, nothing is logged and the store is left as it was. -/
theorem putTodo_without_fields_rejected {σ : Type} (pool : Pool σ) (req : Request) (db : σ)
    (ht : getProp req.body "task" = JsValue.undefined)
    (hc : getProp req.body "completed" = JsValue.undefined) :
    (putTodo pool req db).response = ⟨400, .error "No fields to update"⟩ ∧
      (putTodo pool req db).issued = [] ∧
      (putTodo pool req db).db = db := by
  rw [putTodo_of_absent pool req db ht hc]
  exact ⟨rfl, rfl, rfl⟩

/-- C2 at the empty body, on a store with one todo. -/
theorem putTodo_without_fields_rejected_witness :
    (putTodo pgPool ⟨⟨"1"⟩, []⟩
        ⟨[⟨1, some (.lit "buy milk"), some false⟩], [], 2, 1, 0⟩).response.status = 400 ∧
      (putTodo pgPool ⟨⟨"1"⟩, []⟩
        ⟨[⟨1, some (.lit "buy milk"), some false⟩], [], 2, 1, 0⟩).db.todos =
        [⟨1, some (.lit "buy milk"), some false⟩] := by
  have h := putTodo_without_fields_rejected pgPool ⟨⟨"1"⟩, []⟩
    ⟨[⟨1, some (.lit "buy milk"), some false⟩], [], 2, 1, 0⟩ rfl rfl
  exact ⟨by rw [h.1], by rw [h.2.2]⟩

/-- C3, as amended: the Todo create handler answers 400 `Task is required`,
issues no statement and leaves the store as it was whenever `task` is falsy;
it answers 400 only then; and the falsy values are exactly `undefined` (a
missing `task`), `null`, `false`, `NaN`, `-0`, `0` and the empty string. -/
theorem postTodo_rejects_exactly_falsy_task {σ : Type} (pool : Pool σ) (req : Request)
    (db : σ) :
    ((getProp req.body "task").toBoolean = false →
        postTodo pool req db = ⟨⟨400, .error "Task is required"⟩, [], [], db⟩) ∧
      ((postTodo pool req db).response.status = 400 →
        (getProp req.body "task").toBoolean = false) ∧
      ((getProp req.body "task").toBoolean = false ↔
        getProp req.body "task" = JsValue.undefined ∨ getProp req.body "task" = JsValue.null ∨
        getProp req.body "task" = JsValue.bool false ∨
        getProp req.body "task" = JsValue.num JsNumber.nan ∨
        getProp req.body "task" = JsValue.num JsNumber.negZero ∨
        getProp req.body "task" = JsValue.num (JsNumber.real 0) ∨
        getProp req.body "task" = JsValue.str "") := by
  refine ⟨?_, ?_, JsValue.toBoolean_eq_false⟩
  · intro h
    simp [postTodo, h]
  · intro h
    cases hb : (getProp req.body "task").toBoolean
    · rfl
    · exfalso
      simp only [postTodo, hb] at h
      revert h
      simp only [Bool.not_true, Bool.false_eq_true, if_false]
      split <;> simp

/-- C3 at the bodies `{}` and `{ task: '' }`: both are answered 400 with no
statement issued. -/
theorem postTodo_rejects_exactly_falsy_task_witness :
    postTodo pgPool ⟨⟨""⟩, []⟩ ⟨[], [], 1, 1, 0⟩ =
        ⟨⟨400, .error "Task is required"⟩, [], [], ⟨[], [], 1, 1, 0⟩⟩ ∧
      postTodo pgPool ⟨⟨""⟩, [("task", JsValue.str "")]⟩ ⟨[], [], 1, 1, 0⟩ =
        ⟨⟨400, .error "Task is required"⟩, [], [], ⟨[], [], 1, 1, 0⟩⟩ :=
  ⟨(postTodo_rejects_exactly_falsy_task pgPool ⟨⟨""⟩, []⟩ ⟨[], [], 1, 1, 0⟩).1 rfl,
    (postTodo_rejects_exactly_falsy_task pgPool ⟨⟨""⟩, [("task", JsValue.str "")]⟩
      ⟨[], [], 1, 1, 0⟩).1 rfl⟩

/-- C3 as stated fails: the body `{ task: 0 }` carries a `task` that is neither
missing nor the empty string, and the validation step answers it with 400
`Task is required` without issuing a statement. -/
theorem postTodo_rejects_zero_task :
    getProp [("task", JsValue.num (JsNumber.real 0))] "task" ≠ JsValue.undefined ∧
      getProp [("task", JsValue.num (JsNumber.real 0))] "task" ≠ JsValue.str "" ∧
      (postTodo pgPool ⟨⟨""⟩, [("task", JsValue.num (JsNumber.real 0))]⟩
        ⟨[], [], 1, 1, 0⟩).response.status = 400 ∧
      (postTodo pgPool ⟨⟨""⟩, [("task", JsValue.num (JsNumber.real 0))]⟩
        ⟨[], [], 1, 1, 0⟩).issued = [] := by
  refine ⟨?_, ?_, ?_, ?_⟩ <;> simp [getProp, List.lookup, postTodo, JsValue.toBoolean,
    JsNumber.toBoolean]

/-- C6: whatever the route and the request, when a statement the handler hands
to the pool fails, the response is 500 with the fixed `error` message of that
route, and a second failure with another error (message, stack) gets the same
response: the detail of the error is not in it. -/
theorem store_failure_response_is_generic {σ : Type} (r : Route) (pool1 pool2 : Pool σ)
    (req : Request) (db : σ) (q : Query) (e1 e2 : StoreError) (s1 s2 : σ)
    (hq : q ∈ (handle r (recording pool1) req (db, [])).db.2)
    (h1 : pool1 q db = (.error e1, s1)) (h2 : pool2 q db = (.error e2, s2)) :
    (handle r pool1 req db).response = ⟨500, .error (serverErrorMessage r)⟩ ∧
      (handle r pool2 req db).response = (handle r pool1 req db).response := by
  rw [handle_recording r pool1 req db []] at hq
  simp only [observed, List.nil_append] at hq
  cases r <;> simp only [handle, serverErrorMessage] at hq ⊢
  · have hi : (getTodos pool1 req db).issued =
        [⟨"SELECT * FROM todos ORDER BY id ASC", []⟩] := by
      unfold getTodos; dsimp only; split <;> rfl
    rw [hi, List.mem_singleton] at hq
    subst hq
    simp [getTodos, h1, h2]
  · cases hv : (getProp req.body "task").toBoolean
    · simp [postTodo, hv] at hq
    · rw [postTodo_of_truthy pool1 req db hv] at hq ⊢
      rw [postTodo_of_truthy pool2 req db hv]
      have hi : q = ⟨"INSERT INTO todos (task) VALUES ($1) RETURNING *",
          [getProp req.body "task"]⟩ := by
        dsimp only at hq
        split at hq <;> simpa using hq
      subst hi
      simp [h1, h2]
  · by_cases hv : (getProp req.body "task").isUndefined = false ∨
        (getProp req.body "completed").isUndefined = false
    · rw [putTodo_of_present pool1 req db hv] at hq ⊢
      rw [putTodo_of_present pool2 req db hv]
      have hi : q = ⟨referenceText (presentFields req.body),
          referenceParams (presentFields req.body) req.params.id⟩ := by
        dsimp only at hq
        split at hq
        · split at hq <;> simpa using hq
        · simpa using hq
      subst hi
      simp [h1, h2]
    · simp only [not_or, Bool.not_eq_false, JsValue.isUndefined_eq_true] at hv
      rw [putTodo_of_absent pool1 req db hv.1 hv.2] at hq
      simp at hq
  · have hi : (deleteTodo pool1 req db).issued =
        [⟨"DELETE FROM todos WHERE id = $1 RETURNING *", [JsValue.str req.params.id]⟩] := by
      unfold deleteTodo; dsimp only; split <;> (try split) <;> rfl
    rw [hi, List.mem_singleton] at hq
    subst hq
    simp [deleteTodo, h1, h2]
  · have hi : (getNotes pool1 req db).issued =
        [⟨"SELECT id, title, created_at, updated_at FROM notes ORDER BY created_at DESC",
          []⟩] := by
      unfold getNotes; dsimp only; split <;> rfl
    rw [hi, List.mem_singleton] at hq
    subst hq
    simp [getNotes, h1, h2]
  · have hi : (getNote pool1 req db).issued =
        [⟨"SELECT * FROM notes WHERE id = $1", [JsValue.str req.params.id]⟩] := by
      unfold getNote; dsimp only; split <;> (try split) <;> rfl
    rw [hi, List.mem_singleton] at hq
    subst hq
    simp [getNote, h1, h2]
  · cases hv : (getProp req.body "content").toBoolean
    · simp [postNote, hv] at hq
    · rw [postNote_of_truthy pool1 req db hv] at hq ⊢
      rw [postNote_of_truthy pool2 req db hv]
      have hi : q = ⟨"INSERT INTO notes (title, content) VALUES ($1, $2) RETURNING *",
          [(getProp req.body "title").or JsValue.null, getProp req.body "content"]⟩ := by
        dsimp only at hq
        split at hq <;> simpa using hq
      subst hi
      simp [h1, h2]
  · cases hv : (getProp req.body "content").toBoolean
    · simp [putNote, hv] at hq
    · rw [putNote_of_truthy pool1 req db hv] at hq ⊢
      rw [putNote_of_truthy pool2 req db hv]
      have hi : q = ⟨"UPDATE notes SET title = $1, content = $2, updated_at = CURRENT_TIMESTAMP WHERE id = $3 RETURNING *",
          [(getProp req.body "title").or JsValue.null, getProp req.body "content",
            JsValue.str req.params.id]⟩ := by
        dsimp only at hq
        split at hq
        · split at hq <;> simpa using hq
        · simpa using hq
      subst hi
      simp [h1, h2]
  · have hi : (deleteNote pool1 req db).issued =
        [⟨"DELETE FROM notes WHERE id = $1 RETURNING *", [JsValue.str req.params.id]⟩] := by
      unfold deleteNote; dsimp only; split <;> (try split) <;> rfl
    rw [hi, List.mem_singleton] at hq
    subst hq
    simp [deleteNote, h1, h2]

/-- C6 on the delete route: the store is handed the statement and rejects the
id `abc`, a second pool fails with a connection error, and both requests get
the same 500 response. -/
theorem store_failure_response_is_generic_witness :
    (handle Route.deleteTodo pgPool ⟨⟨"abc"⟩, []⟩ ⟨[], [], 1, 1, 0⟩).response =
        ⟨500, .error "Server error"⟩ ∧
      (handle Route.deleteTodo (failingPool ⟨"Connection terminated", "at Client"⟩)
          ⟨⟨"abc"⟩, []⟩ ⟨[], [], 1, 1, 0⟩).response =
        (handle Route.deleteTodo pgPool ⟨⟨"abc"⟩, []⟩ ⟨[], [], 1, 1, 0⟩).response :=
  store_failure_response_is_generic Route.deleteTodo pgPool
    (failingPool ⟨"Connection terminated", "at Client"⟩) ⟨⟨"abc"⟩, []⟩ ⟨[], [], 1, 1, 0⟩
    ⟨"DELETE FROM todos WHERE id = $1 RETURNING *", [JsValue.str "abc"]⟩
    invalidInteger ⟨"Connection terminated", "at Client"⟩ ⟨[], [], 1, 1, 0⟩ ⟨[], [], 1, 1, 0⟩
    (List.mem_singleton.mpr rfl) rfl rfl

/-- C7 fails on the code: the update handler accepts the body `{ task: null }`
(`null !== undefined`), binds `null` to the `task` column and answers 200; the
stored todo, whose task was not null, has a null task afterwards. -/
theorem putTodo_null_task_writes_null :
    (putTodo pgPool ⟨⟨"1"⟩, [("task", JsValue.null)]⟩
        ⟨[⟨1, some (.lit "buy milk"), some false⟩], [], 2, 1, 0⟩).issued =
        [⟨"UPDATE todos SET task = $1 WHERE id = $2 RETURNING *",
          [JsValue.null, JsValue.str "1"]⟩] ∧
      (putTodo pgPool ⟨⟨"1"⟩, [("task", JsValue.null)]⟩
        ⟨[⟨1, some (.lit "buy milk"), some false⟩], [], 2, 1, 0⟩).response.status = 200 ∧
      (putTodo pgPool ⟨⟨"1"⟩, [("task", JsValue.null)]⟩
        ⟨[⟨1, some (.lit "buy milk"), some false⟩], [], 2, 1, 0⟩).db.todos =
        [⟨1, none, some false⟩] ∧
      (putTodo (recording pgPool) ⟨⟨"1"⟩, [("task", JsValue.null)]⟩
        (⟨[⟨1, some (.lit "buy milk"), some false⟩], [], 2, 1, 0⟩, [])).db.2 =
        [⟨"UPDATE todos SET task = $1 WHERE id = $2 RETURNING *",
          [JsValue.null, JsValue.str "1"]⟩] :=
  ⟨rfl, rfl, rfl, rfl⟩

/-- C8: from a store in which every note has a non-null `content`, every
sequence of requests to the API (Note create, update and delete among them)
leaves a store in which every note has a non-null `content`; and a Note create
or update request whose `content` is missing is answered 400 `Content is
required` without a statement issued or the store changed. -/
theorem note_content_stays_non_null (db : Db)
    (h : ∀ n ∈ db.notes, n.content ≠ none) (calls : List (Route × Request)) :
    (∀ n ∈ (run pgPool calls db).notes, n.content ≠ none) ∧
      (∀ (σ : Type) (pool : Pool σ) (req : Request) (db1 : σ),
        getProp req.body "content" = JsValue.undefined →
          postNote pool req db1 = ⟨⟨400, .error "Content is required"⟩, [], [], db1⟩ ∧
          putNote pool req db1 = ⟨⟨400, .error "Content is required"⟩, [], [], db1⟩) := by
  refine ⟨run_contentNonNull calls db h, ?_⟩
  intro σ pool req db1 hc
  have hf : (getProp req.body "content").toBoolean = false := by rw [hc]; rfl
  exact ⟨postNote_of_falsy pool req db1 hf, putNote_of_falsy pool req db1 hf⟩

/-- C8 on a store with one note, through a create without `content` (refused),
an update of note 1 and a create: the two notes left have their content. -/
theorem note_content_stays_non_null_witness :
    (run pgPool
        [(Route.postNote, (⟨⟨""⟩, [("title", JsValue.str "t")]⟩ : Request)),
          (Route.putNote, (⟨⟨"1"⟩, [("content", JsValue.str "new")]⟩ : Request)),
          (Route.postNote, (⟨⟨""⟩, [("content", JsValue.str "hello")]⟩ : Request))]
        ⟨[], [⟨1, none, some (.lit "old"), 0, 0⟩], 1, 2, 5⟩).notes.all
      (fun n => n.content.isSome) = true := by
  rw [List.all_eq_true]
  intro n hn
  have hne := (note_content_stays_non_null
    ⟨[], [⟨1, none, some (.lit "old"), 0, 0⟩], 1, 2, 5⟩ (by simp) _).1 n hn
  cases hcn : n.content <;> simp_all

/-- C10: when the store runs the statement (the path id denotes the integer
`n`), the Todo delete handler answers 404 and leaves the store as it was if and
only if no todo has the id `n`; when a todo has it, the answer is 200 with the
body `message: Todo deleted successfully` and nothing else, and the listing
that follows holds exactly the todos of before whose id is not `n`. -/
theorem deleteTodo_not_found_iff_absent (db : Db) (req : Request) (n : Int)
    (hid : parseId req.params.id = some n) :
    (((deleteTodo pgPool req db).response.status = 404 ∧ (deleteTodo pgPool req db).db = db) ↔
        ∀ t ∈ db.todos, t.id ≠ n) ∧
      ((∃ t ∈ db.todos, t.id = n) →
        (deleteTodo pgPool req db).response = ⟨200, .message "Todo deleted successfully"⟩ ∧
        ∀ req2 : Request, ∃ listed : List Todo,
          (getTodos pgPool req2 (deleteTodo pgPool req db).db).response =
            ⟨200, .rows (listed.map Row.todo)⟩ ∧
          ∀ t, t ∈ listed ↔ (t ∈ db.todos ∧ t.id ≠ n)) := by
  have hd : deleteTodo pgPool req db =
      if ((db.todos.filter (fun t => t.id = n)).map Row.todo).length = 0 then
        ⟨⟨404, .error "Todo not found"⟩,
          [⟨"DELETE FROM todos WHERE id = $1 RETURNING *", [JsValue.str req.params.id]⟩], [],
          { db with todos := db.todos.filter (fun t => ¬ t.id = n) }⟩
      else
        ⟨⟨200, .message "Todo deleted successfully"⟩,
          [⟨"DELETE FROM todos WHERE id = $1 RETURNING *", [JsValue.str req.params.id]⟩], [],
          { db with todos := db.todos.filter (fun t => ¬ t.id = n) }⟩ := by
    simp only [deleteTodo, pgPool_deleteTodo, hid]
  have hlen : ((db.todos.filter (fun t => t.id = n)).map Row.todo).length = 0 ↔
      ∀ t ∈ db.todos, t.id ≠ n := by
    simp [List.filter_eq_nil_iff]
  rw [hd]
  by_cases hno : ∀ t ∈ db.todos, t.id ≠ n
  · rw [if_pos (hlen.mpr hno)]
    refine ⟨⟨fun _ => hno, fun _ => ⟨rfl, ?_⟩⟩, ?_⟩
    · have hf : db.todos.filter (fun t => ¬ t.id = n) = db.todos := by
        rw [List.filter_eq_self]
        intro t ht
        simpa using hno t ht
      simp only [hf]
    · rintro ⟨t, ht, htn⟩
      exact absurd htn (hno t ht)
  · rw [if_neg (fun hl => hno (hlen.mp hl))]
    refine ⟨⟨fun h => ?_, fun h => absurd h hno⟩, ?_⟩
    · exfalso
      have := h.1
      simp at this
    · intro _
      refine ⟨rfl, fun req2 => ?_⟩
      refine ⟨(db.todos.filter (fun t => ¬ t.id = n)).insertionSort (fun a b => a.id ≤ b.id),
        ?_, ?_⟩
      · simp only [getTodos, pgPool_selectTodos]
      · intro t
        rw [(List.perm_insertionSort _ _).mem_iff]
        simp [List.mem_filter]

/-- C10 on a store with the todos 1 and 2: deleting id 2 answers 200 and the
listing that follows holds todo 1 only. -/
theorem deleteTodo_not_found_iff_absent_witness :
    (deleteTodo pgPool ⟨⟨"2"⟩, []⟩
        ⟨[⟨1, some (.lit "a"), some false⟩, ⟨2, some (.lit "b"), some true⟩],
          [], 3, 1, 0⟩).response = ⟨200, .message "Todo deleted successfully"⟩ :=
  ((deleteTodo_not_found_iff_absent
    ⟨[⟨1, some (.lit "a"), some false⟩, ⟨2, some (.lit "b"), some true⟩],
      [], 3, 1, 0⟩ ⟨⟨"2"⟩, []⟩ 2 (by decide)).2
    ⟨⟨2, some (.lit "b"), some true⟩, by simp, rfl⟩).1


/-- C4, as amended: a Todo update whose body carries `completed` and no `task`
hands the store the one statement
`UPDATE todos SET completed = $1 WHERE id = $2 RETURNING *`, bound to the
submitted value and the path id, and afterwards every row has the id and the
task it had before. When the store takes the value as the boolean `b`, the
rows with the path id have `completed = b` and the others are as they were; a
submitted boolean is taken as itself and `null` as `NULL`; a value the store
does not take as a boolean is answered 500 and the store is as it was. The
request of the client's toggle, `{ completed: !completed }`, is such a
request: it sends a boolean, leaves every id and task as it was and stores the
boolean it sent. -/
theorem putTodo_completed_only_keeps_task (db : Db) (req : Request)
    (ht : getProp req.body "task" = JsValue.undefined)
    (hc : getProp req.body "completed" ≠ JsValue.undefined) :
    (putTodo (recording pgPool) req (db, [])).db.2 =
        [⟨"UPDATE todos SET completed = $1 WHERE id = $2 RETURNING *",
          [getProp req.body "completed", JsValue.str req.params.id]⟩] ∧
      (putTodo pgPool req db).db.todos.map (fun t => (t.id, t.task)) =
        db.todos.map (fun t => (t.id, t.task)) ∧
      (∀ (n : Int) (b : Option Bool), parseId req.params.id = some n →
        boolOf (prepareValue (getProp req.body "completed")) = .ok b →
        (putTodo pgPool req db).db.todos =
          db.todos.map (fun t => if t.id = n then { t with completed := b } else t)) ∧
      (∀ b : Bool, getProp req.body "completed" = JsValue.bool b →
        boolOf (prepareValue (getProp req.body "completed")) = .ok (some b)) ∧
      (getProp req.body "completed" = JsValue.null →
        boolOf (prepareValue (getProp req.body "completed")) = .ok none) ∧
      (∀ e : StoreError, boolOf (prepareValue (getProp req.body "completed")) = .error e →
        (putTodo pgPool req db).response = ⟨500, .error "Server error"⟩ ∧
        (putTodo pgPool req db).db = db) ∧
      (∀ (id : String) (completed : JsValue),
        (putTodo (recording pgPool) (handleToggleTodo id completed) (db, [])).db.2 =
            [⟨"UPDATE todos SET completed = $1 WHERE id = $2 RETURNING *",
              [JsValue.bool (!completed.toBoolean), JsValue.str id]⟩] ∧
          (putTodo pgPool (handleToggleTodo id completed) db).db.todos.map
              (fun t => (t.id, t.task)) =
            db.todos.map (fun t => (t.id, t.task)) ∧
          (∀ n : Int, parseId id = some n →
            (putTodo pgPool (handleToggleTodo id completed) db).db.todos =
              db.todos.map (fun t =>
                if t.id = n then { t with completed := some (!completed.toBoolean) }
                else t))) := by
  obtain ⟨h1, h2, h3, h4⟩ := putTodo_completed_only db req ht hc
  refine ⟨?_, h2, h3, ?_, ?_, h4, ?_⟩
  · rw [putTodo_recording pgPool req db []]
    simp only [observed, List.nil_append]
    exact h1
  · intro b hb
    rw [hb]
    exact boolOf_prepareValue_bool b
  · intro hn
    rw [hn]
    rfl
  · intro id completed
    have hk := putTodo_completed_only db (handleToggleTodo id completed) rfl
      (by simp [handleToggleTodo, getProp, List.lookup])
    refine ⟨?_, hk.2.1, ?_⟩
    · rw [putTodo_recording pgPool _ db []]
      simp only [observed, List.nil_append]
      exact hk.1
    · intro n hn
      exact hk.2.2.1 n (some (!completed.toBoolean)) hn
        (boolOf_prepareValue_bool (!completed.toBoolean))

/-- C4 on a store with the todo 1 `buy milk`, not completed, toggled by the
client: the row keeps its id and task and becomes completed. -/
theorem putTodo_completed_only_keeps_task_witness :
    (putTodo pgPool (handleToggleTodo "1" (JsValue.bool false))
        ⟨[⟨1, some (.lit "buy milk"), some false⟩], [], 2, 1, 0⟩).db.todos =
      [⟨1, some (.lit "buy milk"), some true⟩] :=
  ((putTodo_completed_only_keeps_task
    ⟨[⟨1, some (.lit "buy milk"), some false⟩], [], 2, 1, 0⟩
    (handleToggleTodo "1" (JsValue.bool false)) rfl
    (by simp [handleToggleTodo, getProp, List.lookup])).2.2.1 1 (some true) (by decide)
    rfl).trans rfl

/-- C4 as stated fails: the body `{ completed: 'yes' }` carries `completed` and
no `task`; the update is answered 200 and the row holds the boolean `true`,
not the submitted string. The body `{ completed: 'abc' }` is answered 500 and
the row keeps the `completed` it had. -/
theorem putTodo_completed_text_is_converted :
    getProp [("completed", JsValue.str "yes")] "completed" = JsValue.str "yes" ∧
      (putTodo pgPool ⟨⟨"1"⟩, [("completed", JsValue.str "yes")]⟩
        ⟨[⟨1, some (.lit "buy milk"), some false⟩], [], 2, 1, 0⟩).response.status = 200 ∧
      (putTodo pgPool ⟨⟨"1"⟩, [("completed", JsValue.str "yes")]⟩
        ⟨[⟨1, some (.lit "buy milk"), some false⟩], [], 2, 1, 0⟩).db.todos =
        [⟨1, some (.lit "buy milk"), some true⟩] ∧
      jsOfBool (some true) ≠ JsValue.str "yes" ∧
      (putTodo pgPool ⟨⟨"1"⟩, [("completed", JsValue.str "abc")]⟩
        ⟨[⟨1, some (.lit "buy milk"), some false⟩], [], 2, 1, 0⟩).response.status = 500 ∧
      (putTodo pgPool ⟨⟨"1"⟩, [("completed", JsValue.str "abc")]⟩
        ⟨[⟨1, some (.lit "buy milk"), some false⟩], [], 2, 1, 0⟩).db.todos =
        [⟨1, some (.lit "buy milk"), some false⟩] :=
  ⟨rfl, rfl, rfl, by simp [jsOfBool], rfl, rfl⟩

/-- C5, as amended: on a store whose ids lie below the next ids, a Todo create
with a truthy `task` answers 201 with a todo whose task is the text sent for
the submitted value, the submitted string itself when it is a string, and
whose `completed` is false, and the listing that follows holds that todo and
no other todo with its id; a Note create with a truthy `content` answers 201
with a note whose content is the text sent for the submitted value, the
submitted string itself when it is a string, and whose title is the submitted
title when that is a non-empty string and `NULL` when the title is falsy
(omitted, null or the empty string), and a get by the id of the note returns
that same note. -/
theorem create_round_trip (db : Db) (hwf : db.WellFormed) (req : Request) :
    ((getProp req.body "task").toBoolean = true →
        ∃ t : Todo,
          (postTodo pgPool req db).response = ⟨201, .row (some (Row.todo t))⟩ ∧
          t.task = prepareValue (getProp req.body "task") ∧
          (∀ s : String, getProp req.body "task" = JsValue.str s → t.task = some (.lit s)) ∧
          t.completed = some false ∧
          ∀ req2 : Request, ∃ listed : List Todo,
            (getTodos pgPool req2 (postTodo pgPool req db).db).response =
              ⟨200, .rows (listed.map Row.todo)⟩ ∧
            t ∈ listed ∧ ∀ t2 ∈ listed, t2.id = t.id → t2 = t) ∧
      ((getProp req.body "content").toBoolean = true →
        ∃ n : Note,
          (postNote pgPool req db).response = ⟨201, .row (some (Row.note n))⟩ ∧
          n.content = prepareValue (getProp req.body "content") ∧
          (∀ s : String, getProp req.body "content" = JsValue.str s →
            n.content = some (.lit s)) ∧
          (∀ u : String, getProp req.body "title" = JsValue.str u → u ≠ "" →
            n.title = some (.lit u)) ∧
          ((getProp req.body "title").toBoolean = false → n.title = none) ∧
          ∀ req2 : Request, parseId req2.params.id = some n.id →
            (getNote pgPool req2 (postNote pgPool req db).db).response =
              ⟨200, .row (some (Row.note n))⟩) := by
  constructor
  · intro hv
    refine ⟨⟨db.nextTodoId, prepareValue (getProp req.body "task"), some false⟩,
      ?_, rfl, ?_, rfl, ?_⟩
    · rw [postTodo_of_truthy pgPool req db hv]
      simp only [pgPool_insertTodo, List.head?]
    · intro s hs
      simp only [hs, prepareValue]
    · intro req2
      rw [postTodo_of_truthy pgPool req db hv]
      simp only [pgPool_insertTodo]
      refine ⟨(db.todos ++ [(⟨db.nextTodoId, prepareValue (getProp req.body "task"),
        some false⟩ : Todo)]).insertionSort (fun a b => a.id ≤ b.id), ?_, ?_, ?_⟩
      · simp only [getTodos, pgPool_selectTodos]
      · rw [(List.perm_insertionSort _ _).mem_iff]
        simp
      · intro t2 ht2 hid
        rw [(List.perm_insertionSort _ _).mem_iff] at ht2
        simp only [List.mem_append, List.mem_singleton] at ht2
        rcases ht2 with ht2 | ht2
        · have hlt := hwf.1 t2 ht2
          have hid2 : t2.id = db.nextTodoId := hid
          omega
        · exact ht2
  · intro hv
    refine ⟨⟨db.nextNoteId, prepareValue ((getProp req.body "title").or JsValue.null),
      prepareValue (getProp req.body "content"), db.now, db.now⟩, ?_, rfl, ?_, ?_, ?_, ?_⟩
    · rw [postNote_of_truthy pgPool req db hv]
      simp only [pgPool_insertNote, List.head?]
    · intro s hs
      simp only [hs, prepareValue]
    · intro u hu hne
      show prepareValue ((getProp req.body "title").or JsValue.null) = some (.lit u)
      rw [hu, prepareValue_or_null]
      simp [JsValue.toBoolean, prepareValue, hne]
    · intro hf
      simp only [prepareValue_or_null, hf]
      rfl
    · intro req2 hid
      rw [postNote_of_truthy pgPool req db hv]
      simp only [pgPool_insertNote]
      simp only [getNote, pgPool_selectNote, hid]
      have hf := filter_append_new Note.id db.notes
        ⟨db.nextNoteId, prepareValue ((getProp req.body "title").or JsValue.null),
          prepareValue (getProp req.body "content"), db.now, db.now⟩ (fun y hy => hwf.2 y hy)
      simp only at hf
      simp [hf]

/-- C5 on a store with one todo and one note: the note created with the title
`shopping` and the content `hello` is answered as submitted. -/
theorem create_round_trip_witness :
    ∃ n : Note,
      (postNote pgPool
          ⟨⟨""⟩, [("title", JsValue.str "shopping"), ("content", JsValue.str "hello")]⟩
          ⟨[⟨1, some (.lit "a"), some false⟩],
            [⟨1, none, some (.lit "old"), 0, 0⟩], 2, 2, 5⟩).response =
        ⟨201, .row (some (Row.note n))⟩ ∧
      n.content = some (.lit "hello") ∧ n.title = some (.lit "shopping") :=
  let ⟨n, h1, _, h3, h4, _⟩ := (create_round_trip
    ⟨[⟨1, some (.lit "a"), some false⟩],
      [⟨1, none, some (.lit "old"), 0, 0⟩], 2, 2, 5⟩
    ⟨by simp, by simp⟩
    ⟨⟨""⟩, [("title", JsValue.str "shopping"), ("content", JsValue.str "hello")]⟩).2 rfl
  ⟨n, h1, h3 "hello" rfl, h4 "shopping" rfl (by decide)⟩

/-- C5 as stated fails: a Note create with the title `''` and the content
`hello` is accepted, and the note answered, and returned by the get by id that
follows, has a null title, not the submitted empty string; and a Todo create
with the task `true` is accepted and answered with the text `true` as its
task, a string and not the submitted boolean. -/
theorem postNote_empty_title_comes_back_null :
    getProp [("title", JsValue.str ""), ("content", JsValue.str "hello")] "title" =
        JsValue.str "" ∧
      (postNote pgPool ⟨⟨""⟩, [("title", JsValue.str ""), ("content", JsValue.str "hello")]⟩
          ⟨[], [], 1, 1, 0⟩).response =
        ⟨201, .row (some (Row.note ⟨1, none, some (.lit "hello"), 0, 0⟩))⟩ ∧
      (getNote pgPool ⟨⟨"1"⟩, []⟩
          (postNote pgPool
            ⟨⟨""⟩, [("title", JsValue.str ""), ("content", JsValue.str "hello")]⟩
            ⟨[], [], 1, 1, 0⟩).db).response =
        ⟨200, .row (some (Row.note ⟨1, none, some (.lit "hello"), 0, 0⟩))⟩ ∧
      getProp [("task", JsValue.bool true)] "task" = JsValue.bool true ∧
      (postTodo pgPool ⟨⟨""⟩, [("task", JsValue.bool true)]⟩ ⟨[], [], 1, 1, 0⟩).response =
        ⟨201, .row (some (Row.todo ⟨1, some (.lit "true"), some false⟩))⟩ :=
  ⟨rfl, rfl, rfl, rfl, rfl⟩

/-- C9, as amended: a Note update with a truthy `content` hands the store the
one statement that assigns `title`, `content` and `updated_at`, bound to
`title || null`, the submitted content and the path id; afterwards the notes
with the path id have the title and the content sent, whatever they had
before, and the others are as they were. The content stored is the submitted
string when it is a string. The title stored is the submitted title when that
is a non-empty string and `NULL` when the title is falsy: when it is omitted,
and when it is the empty string as well. A Note create hands the store its
`INSERT` bound to `title || null` and the content, and the row it appends
holds the same title and content. -/
theorem putNote_replaces_title_and_content (db : Db) (req : Request)
    (hc : (getProp req.body "content").toBoolean = true) :
    (putNote (recording pgPool) req (db, [])).db.2 =
        [⟨"UPDATE notes SET title = $1, content = $2, updated_at = CURRENT_TIMESTAMP WHERE id = $3 RETURNING *",
          [(getProp req.body "title").or JsValue.null, getProp req.body "content",
            JsValue.str req.params.id]⟩] ∧
      (∀ n : Int, parseId req.params.id = some n →
        (putNote pgPool req db).db.notes = db.notes.map (fun x =>
          if x.id = n then
            { x with title := prepareValue ((getProp req.body "title").or JsValue.null),
                     content := prepareValue (getProp req.body "content"),
                     updated_at := db.now }
          else x)) ∧
      (∀ s : String, getProp req.body "content" = JsValue.str s →
        prepareValue (getProp req.body "content") = some (.lit s)) ∧
      (∀ u : String, getProp req.body "title" = JsValue.str u → u ≠ "" →
        prepareValue ((getProp req.body "title").or JsValue.null) = some (.lit u)) ∧
      ((getProp req.body "title").toBoolean = false →
        prepareValue ((getProp req.body "title").or JsValue.null) = none) ∧
      (getProp req.body "title" = JsValue.undefined →
        prepareValue ((getProp req.body "title").or JsValue.null) = none) ∧
      (postNote (recording pgPool) req (db, [])).db =
        ({ db with
            notes := db.notes ++
              [⟨db.nextNoteId, prepareValue ((getProp req.body "title").or JsValue.null),
                prepareValue (getProp req.body "content"), db.now, db.now⟩],
            nextNoteId := db.nextNoteId + 1 },
          [⟨"INSERT INTO notes (title, content) VALUES ($1, $2) RETURNING *",
            [(getProp req.body "title").or JsValue.null, getProp req.body "content"]⟩]) := by
  refine ⟨?_, ?_, ?_, ?_, ?_, ?_, ?_⟩
  · rw [putNote_recording pgPool req db []]
    simp only [observed, List.nil_append]
    rw [putNote_of_truthy pgPool req db hc]
    dsimp only
    split
    · split <;> rfl
    · rfl
  · intro n hn
    rw [putNote_of_truthy pgPool req db hc]
    simp only [pgPool_updateNote, hn, updateNotes]
    split <;> rfl
  · intro s hs
    simp only [hs, prepareValue]
  · intro u hu hne
    rw [hu, prepareValue_or_null]
    simp [JsValue.toBoolean, prepareValue, hne]
  · intro hf
    simp only [prepareValue_or_null, hf]
    rfl
  · intro hu
    simp only [prepareValue_or_null, hu, JsValue.toBoolean]
    rfl
  · rw [postNote_recording pgPool req db []]
    rw [postNote_of_truthy pgPool req db hc]
    simp only [pgPool_insertNote, observed, List.nil_append]

/-- C9 on a store with the note 1 titled `old`: an update with the title `new`
and the content `x` at time 5 replaces both. -/
theorem putNote_replaces_title_and_content_witness :
    (putNote pgPool ⟨⟨"1"⟩, [("title", JsValue.str "new"), ("content", JsValue.str "x")]⟩
        ⟨[], [⟨1, some (.lit "old"), some (.lit "c"), 0, 0⟩], 1, 2, 5⟩).db.notes =
      [⟨1, some (.lit "new"), some (.lit "x"), 0, 5⟩] :=
  ((putNote_replaces_title_and_content
    ⟨[], [⟨1, some (.lit "old"), some (.lit "c"), 0, 0⟩], 1, 2, 5⟩
    ⟨⟨"1"⟩, [("title", JsValue.str "new"), ("content", JsValue.str "x")]⟩ rfl).2.1 1
    (by decide)).trans rfl

/-- C9 as stated fails: a Note update with the title `''` and the content `x`
is accepted and the stored title is null, not the submitted empty string. -/
theorem putNote_empty_title_stored_null :
    getProp [("title", JsValue.str ""), ("content", JsValue.str "x")] "title" =
        JsValue.str "" ∧
      (putNote pgPool ⟨⟨"1"⟩, [("title", JsValue.str ""), ("content", JsValue.str "x")]⟩
          ⟨[], [⟨1, some (.lit "old"), some (.lit "c"), 0, 0⟩], 1, 2, 5⟩).response.status =
        200 ∧
      (putNote pgPool ⟨⟨"1"⟩, [("title", JsValue.str ""), ("content", JsValue.str "x")]⟩
          ⟨[], [⟨1, some (.lit "old"), some (.lit "c"), 0, 0⟩], 1, 2, 5⟩).db.notes =
        [⟨1, none, some (.lit "x"), 0, 5⟩] :=
  ⟨rfl, rfl, rfl⟩

end LearningApp
